import Mathlib

/-!
# mesh: pod lifecycle synchronisation with a service registry

A shallow embedding of `pkg/controller/handler.go` (the event dispatcher) and
`pkg/dis/discover.go` (the registrar and the instance descriptor builder).

Go values are modelled as follows.

* A Go `error` is `Option Error`; `none` is `nil`.
* A `*discovery.Discovery` is `Ptr = Option Handle`; `none` is the nil pointer.
* The map `disClient` is a function from keys to `Option Ptr`; `none` means the
  key is not in the map, `some none` means the key is mapped to a nil pointer.
* Everything outside the repository (the discovery SDK, the HTTP client, the
  clock) is a `World`: the answers the collaborators give during one call.
* Calls to collaborators are recorded, in order, in a trace of `Event`s.
* A call either returns or panics (`Outcome`).
-/

namespace Mesh

/-! ## Data model -/

/-- A Go error value is a message; the nil error is `none : Option Error`. -/
abbrev Error := String

/-- Identity of a live discovery client. -/
abbrev Handle := Nat

/-- A `*discovery.Discovery`; `none` is the nil pointer. -/
abbrev Ptr := Option Handle

/-- One `corev1.EnvVar`. -/
structure EnvVar where
  Name : String
  Value : String
deriving DecidableEq, Repr

/-- One `corev1.Container`, reduced to the field the code reads. -/
structure Container where
  Env : List EnvVar
deriving DecidableEq, Repr

/-- One `corev1.ContainerStatus`, reduced to the field the code reads. -/
structure ContainerStatus where
  Ready : Bool
deriving DecidableEq, Repr

/-- A `corev1.Pod`, reduced to the fields the code reads:
`pod.Name`, `pod.Namespace`, `pod.GetResourceVersion()`, `pod.Status.Phase`,
`pod.Status.PodIP`, `pod.Status.ContainerStatuses`, `pod.Spec.Containers`. -/
structure Pod where
  Name : String
  Namespace : String
  ResourceVersion : String
  Phase : String
  PodIP : String
  ContainerStatuses : List ContainerStatus
  Containers : List Container
deriving DecidableEq, Repr

/-- The constant `corev1.PodRunning`. -/
def PodRunning : String := "Running"

/-- Modelled from the spec: the constants `discovery.InstanceStatusReceive` and
`discovery.InstanceStatusNotReceive` are declared in the discovery SDK; the
spec gives the status as an enumeration of Receiving and NotReceiving. -/
inductive InstanceStatus where
  | Receive
  | NotReceive
deriving DecidableEq, Repr

/-- A Go `map[string]string`, as an association list with unique keys. -/
abbrev StrMap := List (String × String)

/-- The read `m[k]`: the stored value, or the empty string for a missing key. -/
def StrMap.get (m : StrMap) (k : String) : String :=
  match m with
  | [] => ""
  | (k', v) :: rest => if k' = k then v else StrMap.get rest k

/-- The two-valued read `v, ok := m[k]`. -/
def StrMap.find (m : StrMap) (k : String) : Option String :=
  match m with
  | [] => none
  | (k', v) :: rest => if k' = k then some v else StrMap.find rest k

/-- The write `m[k] = v`. -/
def StrMap.set (m : StrMap) (k v : String) : StrMap :=
  match m with
  | [] => [(k, v)]
  | (k', v') :: rest => if k' = k then (k, v) :: rest else (k', v') :: StrMap.set rest k v

/-- Modelled from the spec: the struct `sesdk.Instance` is declared in the
discovery SDK; the spec lists its fields, a metadata mapping among them. -/
structure Instance where
  Addrs : List String
  LastTs : Int
  Hostname : String
  Status : InstanceStatus
  Zone : String
  Env : String
  Region : String
  Version : String
  AppID : String
  Metadata : StrMap
deriving DecidableEq, Repr

/-- A `*resty.Response`, reduced to `StatusCode()`. -/
structure Response where
  StatusCode : Int
deriving DecidableEq, Repr

/-- The constant `http.StatusOK`. -/
def StatusOK : Int := 200

/-- A notification payload (`interface{}`): a `*corev1.Pod`, possibly nil, or a
value of another dynamic type. -/
inductive Obj where
  | pod (p : Option Pod)
  | other
deriving DecidableEq, Repr

/-- How a call ends: it returns a value or it panics. -/
inductive Outcome (α : Type) where
  | ret (a : α)
  | panic
deriving DecidableEq, Repr

/-- The answers of the collaborators during one call of the dispatcher or the
registrar (each is asked at most once per call). -/
structure World where
  /-- Result of `discovery.New(d.config)`. -/
  discoveryNew : Ptr × Option Error
  /-- Result of `d.requester.R().Get(url)`. -/
  httpGet : String → Option Response × Option Error
  /-- What `dis.Register(ctx, ins)` does; on return, the error it returns. -/
  sdkRegister : Ptr → Instance → Outcome (Option Error)
  /-- What `dis.Cancel(appID)` does. -/
  sdkCancel : Ptr → String → Outcome Unit
  /-- Result of `time.Now().Unix()`. -/
  now : Int

/-- Observable calls, in the order they are made. -/
inductive Event where
  /-- Entry into `Discover.Register(pod)`. -/
  | Register (pod : Pod)
  /-- Entry into `Discover.Cancel(pod)`. -/
  | Cancel (pod : Pod)
  /-- Entry into `Discover.HealthCheckOrCancel(pod)`. -/
  | HealthCheckOrCancel (pod : Pod)
  /-- A call of `discovery.New`. -/
  | discoveryNew
  /-- A GET request to the given URL. -/
  | httpGet (url : String)
  /-- A call `dis.Register(ctx, ins)` of the SDK. -/
  | sdkRegister (dis : Ptr) (ins : Instance)
  /-- A call `dis.Cancel(appID)` of the SDK. -/
  | sdkCancel (dis : Ptr) (appID : String)
  /-- A call `workQueue.Add(item)`. -/
  | queueAdd (item : String)
deriving DecidableEq, Repr

/-- The map `disClient`. -/
abbrev Cache := String → Option Ptr

/-- The state after a call, what was observed during it, and how it ended. -/
structure Run (α : Type) where
  cache : Cache
  trace : List Event
  out : Outcome α

/-! ## pkg/dis/discover.go -/

/-- Modelled from the spec: `cache.MetaNamespaceKeyFunc` belongs to client-go;
the spec gives the key of a pod as `namespace/name`. It returns no error for a
pod. -/
def MetaNamespaceKeyFunc (pod : Pod) : String × Option Error :=
  (pod.Namespace ++ "/" ++ pod.Name, none)

/-- The map key the registrar uses for a pod: `key, _ := MetaNamespaceKeyFunc(pod)`. -/
def podKey (pod : Pod) : String := (MetaNamespaceKeyFunc pod).1

/-- The value of `fmt.Sprintf("%s://%s:%d", "http", pod.Status.PodIP, 80)`. -/
def podAddr (pod : Pod) : String := "http" ++ "://" ++ pod.PodIP ++ ":" ++ "80"

/-- Method `Discover.get`: `dis, ok = d.disClient[key]`. -/
def Discover.get (cache : Cache) (pod : Pod) : Ptr × Bool :=
  match cache (podKey pod) with
  | some dis => (dis, true)
  | none => (none, false)

/-- Method `Discover.Set`: create a client; store it unless creation returned an error.
The error is not returned. -/
def Discover.Set (w : World) (cache : Cache) (pod : Pod) : Cache × List Event × Ptr :=
  let key := podKey pod
  let dis := w.discoveryNew.1
  let err := w.discoveryNew.2
  if err ≠ none then
    (cache, [Event.discoveryNew], dis)
  else
    (fun k => if k = key then some dis else cache k, [Event.discoveryNew], dis)

/-- Method `Discover.delete`: remove the key unless it is absent or maps to nil. -/
def Discover.delete (cache : Cache) (pod : Pod) : Cache :=
  let key := podKey pod
  match cache key with
  | none => cache
  | some none => cache
  | some (some _) => fun k => if k = key then none else cache k

/-- Method `Discover.healthCheck`. -/
def Discover.healthCheck (w : World) (pod : Pod) : List Event × Bool × Option Error :=
  let addr := podAddr pod
  let url := addr ++ "/healthcheck"
  let res := (w.httpGet url).1
  let err := (w.httpGet url).2
  if err ≠ none then
    ([Event.httpGet url], false, err)
  else
    match res with
    | none => ([Event.httpGet url], false, some "healthCheck response is nil")
    | some r =>
      if r.StatusCode = StatusOK then
        ([Event.httpGet url], false, none)
      else
        ([Event.httpGet url], true, none)

/-- The first loop of `Discover.instance`: the status derived from readiness,
stopping at the first container that is not ready. -/
def readinessStatus : List ContainerStatus → InstanceStatus
  | [] => InstanceStatus.Receive
  | cs :: rest => if !cs.Ready then InstanceStatus.NotReceive else readinessStatus rest

/-- The body of the inner loop of `Discover.instance` for one environment
variable, on the descriptor under construction and the local map `metadata`. -/
def scanEnvVar (st : Instance × StrMap) (value : EnvVar) : Instance × StrMap :=
  let ins := st.1
  let metadata := st.2
  let ins := if value.Name = "IDG_CLUSTERUID" then { ins with Zone := value.Value } else ins
  let ins := if value.Name = "IDG_RUNTIME" then { ins with Env := value.Value } else ins
  let metadata := if value.Name = "IDG_RUNTIME" then metadata.set "runtime" value.Value else metadata
  let ins := if value.Name = "IDG_UNIQUEID" then { ins with AppID := value.Value } else ins
  let ins := if value.Name = "IDG_SITEUID" then { ins with Region := value.Value } else ins
  let ins := if value.Name = "IDG_VERSION" then { ins with Version := value.Value } else ins
  let metadata :=
    if value.Name = "IDG_SERVICE_NAME" then metadata.set "service_name" value.Value else metadata
  let metadata :=
    if value.Name = "MSP_PROTOCOL_MODE" then metadata.set "mode" value.Value else metadata
  let metadata :=
    if value.Name = "IDG_SERVICE_IMAGEURL" then metadata.set "service_image" value.Value
    else metadata
  let metadata :=
    if value.Name = "IDG_SERVICE_GATEWAY_ADDR" then
      metadata.set "service_gateway_addr" value.Value
    else metadata
  let metadata := if value.Name = "IDG_WEIGHT" then metadata.set "weight" value.Value else metadata
  let metadata := metadata.set "cert_sn" ""
  let metadata :=
    if (metadata.get "weight").length = 0 then metadata.set "weight" "10" else metadata
  (ins, metadata)

/-- The outer loop of `Discover.instance`: every container in order, each
container's variables in order. -/
def scanContainers (st : Instance × StrMap) (containers : List Container) : Instance × StrMap :=
  containers.foldl (fun acc container => container.Env.foldl scanEnvVar acc) st

/-- The status `Discover.instance` computes, with the events of the probe. -/
def instanceStatus (w : World) (pod : Pod) (noHealthCheck : Bool) :
    List Event × InstanceStatus :=
  let status := readinessStatus pod.ContainerStatuses
  if !noHealthCheck then
    let hc := Discover.healthCheck w pod
    if hc.2.2 = none ∧ hc.2.1 = true then
      (hc.1, InstanceStatus.Receive)
    else
      (hc.1, InstanceStatus.NotReceive)
  else
    ([], status)

/-- The struct literal of `Discover.instance`: the four fields it sets, every
other field at its zero value. -/
def instanceLiteral (w : World) (pod : Pod) (status : InstanceStatus) : Instance :=
  { Addrs := [podAddr pod]
    LastTs := w.now
    Hostname := pod.Name
    Status := status
    Zone := ""
    Env := ""
    Region := ""
    Version := ""
    AppID := ""
    Metadata := [] }

/-- The descriptor and the local map `metadata` at the end of
`Discover.instance`, with the events of the probe. -/
def instanceScan (w : World) (pod : Pod) (noHealthCheck : Bool) :
    List Event × Instance × StrMap :=
  let st := instanceStatus w pod noHealthCheck
  let r := scanContainers (instanceLiteral w pod st.2, []) pod.Containers
  (st.1, r.1, r.2)

/-- Method `Discover.instance`: it returns the descriptor; the local map `metadata` is
not stored in it. -/
def Discover.instance (w : World) (pod : Pod) (noHealthCheck : Bool) :
    List Event × Instance :=
  let r := instanceScan w pod noHealthCheck
  (r.1, r.2.1)

/-- The opening lines shared by `Register`, `Cancel` and `HealthCheckOrCancel`:
`dis, ok := d.get(pod); if !ok { dis = d.Set(pod) }`. -/
def getOrSet (w : World) (cache : Cache) (pod : Pod) : Cache × List Event × Ptr :=
  let g := Discover.get cache pod
  if !g.2 then Discover.Set w cache pod else (cache, [], g.1)

/-- Method `Discover.Register`. -/
def Discover.Register (w : World) (cache : Cache) (pod : Pod) : Run (Option Error) :=
  let s := getOrSet w cache pod
  let dis := s.2.2
  let ins := Discover.instance w pod false
  let t := [Event.Register pod] ++ s.2.1 ++ ins.1 ++ [Event.sdkRegister dis ins.2]
  match w.sdkRegister dis ins.2 with
  | Outcome.ret err => ⟨s.1, t, Outcome.ret err⟩
  | Outcome.panic => ⟨s.1, t, Outcome.panic⟩

/-- Method `Discover.Cancel`: the deferred `d.delete(pod)` runs on return and on panic;
the named result `err` is never assigned. -/
def Discover.Cancel (w : World) (cache : Cache) (pod : Pod) : Run (Option Error) :=
  let s := getOrSet w cache pod
  let dis := s.2.2
  let ins := Discover.instance w pod true
  let t := [Event.Cancel pod] ++ s.2.1 ++ ins.1 ++ [Event.sdkCancel dis ins.2.AppID]
  match w.sdkCancel dis ins.2.AppID with
  | Outcome.ret _ => ⟨Discover.delete s.1 pod, t, Outcome.ret none⟩
  | Outcome.panic => ⟨Discover.delete s.1 pod, t, Outcome.panic⟩

/-- Method `Discover.HealthCheckOrCancel`. -/
def Discover.HealthCheckOrCancel (w : World) (cache : Cache) (pod : Pod) :
    Run (Option Error) :=
  let s := getOrSet w cache pod
  let dis := s.2.2
  let hc := Discover.healthCheck w pod
  let ok := hc.2.1
  let err := hc.2.2
  let t := [Event.HealthCheckOrCancel pod] ++ s.2.1 ++ hc.1
  if err ≠ none ∨ ok = false then
    let ins := Discover.instance w pod true
    let t := t ++ ins.1 ++ [Event.sdkCancel dis ins.2.AppID]
    match w.sdkCancel dis ins.2.AppID with
    | Outcome.ret _ => ⟨Discover.delete s.1 pod, t, Outcome.ret err⟩
    | Outcome.panic => ⟨s.1, t, Outcome.panic⟩
  else
    ⟨Discover.delete s.1 pod, t, Outcome.ret err⟩

/-! ## pkg/controller/handler.go -/

/-- The constant `ActionAdd`. -/
def ActionAdd : String := "Add"

/-- The constant `ActionDelete`. -/
def ActionDelete : String := "Delete"

/-- The type assertion `pod, isPod := obj.(*corev1.Pod)`. -/
def asPod : Obj → Option Pod × Bool
  | Obj.pod p => (p, true)
  | Obj.other => (none, false)

/-- Method `enqueueWorkHandler.enqueueWork`: the queue insertions it makes. The
meta-accessor of client-go dereferences a nil pod. -/
def enqueueWork (action : String) (obj : Obj) : List Event × Outcome Unit :=
  match asPod obj with
  | (_, false) => ([], Outcome.ret ())
  | (none, true) => ([], Outcome.panic)
  | (some pod, true) =>
    let key := (MetaNamespaceKeyFunc pod).1
    let err := (MetaNamespaceKeyFunc pod).2
    if err ≠ none then
      ([], Outcome.ret ())
    else
      ([Event.queueAdd (action ++ ":" ++ key)], Outcome.ret ())

/-- What follows a registrar call in the handlers: `if err != nil` enqueue. -/
def afterCall (r : Run (Option Error)) (action : String) (obj : Obj) : Run Unit :=
  match r.out with
  | Outcome.panic => ⟨r.cache, r.trace, Outcome.panic⟩
  | Outcome.ret err =>
    if err ≠ none then
      let q := enqueueWork action obj
      ⟨r.cache, r.trace ++ q.1, q.2⟩
    else
      ⟨r.cache, r.trace, Outcome.ret ()⟩

/-- Method `enqueueWorkHandler.OnAdd`. -/
def OnAdd (w : World) (cache : Cache) (obj : Obj) : Run Unit :=
  match asPod obj with
  | (_, false) => ⟨cache, [], Outcome.ret ()⟩
  | (none, true) => ⟨cache, [], Outcome.panic⟩
  | (some pod, true) =>
    if pod.Phase = PodRunning then
      afterCall (Discover.Register w cache pod) ActionAdd obj
    else
      ⟨cache, [], Outcome.ret ()⟩

/-- Method `enqueueWorkHandler.OnUpdate`. A failed type assertion leaves a nil
pointer; reading `oldPod.Status.Phase` or `newPod.Status.Phase` through a nil
pointer panics (as does `GetResourceVersion` on one, with nothing done before
it). -/
def OnUpdate (w : World) (cache : Cache) (oldObj newObj : Obj) : Run Unit :=
  let oldPod := (asPod oldObj).1
  let okOld := (asPod oldObj).2
  let newPod := (asPod newObj).1
  let okNew := (asPod newObj).2
  let resync : Bool :=
    match okOld && okNew, oldPod, newPod with
    | true, some o, some n => decide (o.ResourceVersion = n.ResourceVersion)
    | _, _, _ => false
  if resync then
    ⟨cache, [], Outcome.ret ()⟩
  else
    match oldPod, newPod with
    | some o, some n =>
      if o.Phase = n.Phase then
        ⟨cache, [], Outcome.ret ()⟩
      else if o.Phase = PodRunning ∧ o.Phase ≠ n.Phase then
        afterCall (Discover.Cancel w cache n) ActionDelete (Obj.pod newPod)
      else if n.Phase = PodRunning ∧ o.Phase ≠ n.Phase then
        afterCall (Discover.Register w cache n) ActionAdd (Obj.pod newPod)
      else
        ⟨cache, [], Outcome.ret ()⟩
    | _, _ => ⟨cache, [], Outcome.panic⟩

/-- Method `enqueueWorkHandler.OnDelete`. -/
def OnDelete (w : World) (cache : Cache) (obj : Obj) : Run Unit :=
  match asPod obj with
  | (_, false) => ⟨cache, [], Outcome.ret ()⟩
  | (none, true) => ⟨cache, [], Outcome.panic⟩
  | (some pod, true) =>
    afterCall (Discover.Cancel w cache pod) ActionDelete (Obj.pod (some pod))

/-- Method `enqueueWorkHandler.RetryWork`. -/
def RetryWork (w : World) (cache : Cache) (action : String) (pod : Option Pod) : Run Unit :=
  if action = "Add" then
    OnAdd w cache (Obj.pod pod)
  else if action = "Delete" then
    OnDelete w cache (Obj.pod pod)
  else
    ⟨cache, [], Outcome.ret ()⟩

/-! ## Reading a trace -/

/-- The pods `Discover.Register` was called with. -/
def registerCalls (t : List Event) : List Pod :=
  t.filterMap fun e => match e with
    | Event.Register p => some p
    | _ => none

/-- The pods `Discover.Cancel` was called with. -/
def cancelCalls (t : List Event) : List Pod :=
  t.filterMap fun e => match e with
    | Event.Cancel p => some p
    | _ => none

/-- The descriptors passed to the SDK register operation. -/
def sdkRegisterCalls (t : List Event) : List (Ptr × Instance) :=
  t.filterMap fun e => match e with
    | Event.sdkRegister d i => some (d, i)
    | _ => none

/-- The application ids passed to the SDK cancel operation. -/
def sdkCancelCalls (t : List Event) : List (Ptr × String) :=
  t.filterMap fun e => match e with
    | Event.sdkCancel d a => some (d, a)
    | _ => none

/-- The items inserted into the retry queue. -/
def queueAdds (t : List Event) : List String :=
  t.filterMap fun e => match e with
    | Event.queueAdd s => some s
    | _ => none

/-- The live client cached for a key, if any: a key that is absent, or mapped
to the nil pointer, has none. -/
def liveHandle (cache : Cache) (key : String) : Option Handle :=
  match cache key with
  | some (some h) => some h
  | _ => none

/-- Every environment variable of a pod in scan order: containers in order,
each container's variables in order. -/
def podEnv (pod : Pod) : List EnvVar := pod.Containers.flatMap Container.Env

/-- The value of the last variable named `name` in a list, if there is one. -/
def lastValue (name : String) (env : List EnvVar) : Option String :=
  ((env.filter fun v => v.Name = name).getLast?).map EnvVar.Value

/-- The number of calls of `discovery.New`. -/
def newCalls (t : List Event) : Nat :=
  (t.filter fun e => match e with
    | Event.discoveryNew => true
    | _ => false).length

/-- What the spec asks of a handled event, given the run `r` of its registrar
call and the run `h` of the handler: `h` makes the calls of `r` and then
exactly one queue insertion, of `token`, if `r` returned an error, and no
insertion if `r` returned the nil error. -/
def EnqueuesOnError (r : Run (Option Error)) (h : Run Unit) (token : String) : Prop :=
  (∀ e, r.out = Outcome.ret (some e) →
      h.trace = r.trace ++ [Event.queueAdd token] ∧ queueAdds h.trace = [token])
  ∧ (r.out = Outcome.ret none → h.trace = r.trace ∧ queueAdds h.trace = [])

/-! ## Two goroutines in `Discover.Register`

The map `disClient` is the only state the goroutines share, and it is read
under the read lock inside `d.get` and written under the write lock inside
`d.Set`; no lock is held between the two. So a goroutine in
`Discover.Register` takes three steps, each atomic on the map: `d.get`, then
the test `!ok` with `d.Set`, then `dis.Register`. -/

/-- Where a goroutine running `Discover.Register(pod)` stands. -/
inductive RegisterPc where
  /-- Before `d.get(pod)`. -/
  | start
  /-- After `dis, ok := d.get(pod)`. -/
  | afterGet (dis : Ptr) (ok : Bool)
  /-- After `if !ok { dis = d.Set(pod) }`. -/
  | afterSet (dis : Ptr)
  /-- After `dis.Register(ctx, d.instance(pod, false))`, with how it ended. -/
  | done (dis : Ptr) (out : Outcome (Option Error))
deriving DecidableEq, Repr

/-- The next step of a goroutine running `Discover.Register(pod)` in world `w`. -/
def registerStep (w : World) (pod : Pod) (cache : Cache) (pc : RegisterPc) :
    Cache × List Event × RegisterPc :=
  match pc with
  | RegisterPc.start =>
    (cache, [Event.Register pod],
      RegisterPc.afterGet (Discover.get cache pod).1 (Discover.get cache pod).2)
  | RegisterPc.afterGet dis ok =>
    if !ok then
      let s := Discover.Set w cache pod
      (s.1, s.2.1, RegisterPc.afterSet s.2.2)
    else
      (cache, [], RegisterPc.afterSet dis)
  | RegisterPc.afterSet dis =>
    let ins := Discover.instance w pod false
    (cache, ins.1 ++ [Event.sdkRegister dis ins.2],
      RegisterPc.done dis (w.sdkRegister dis ins.2))
  | RegisterPc.done dis out => (cache, [], RegisterPc.done dis out)

/-- Two goroutines, each running `Discover.Register(pod)`, over one map. -/
structure Race where
  cache : Cache
  trace : List Event
  pc1 : RegisterPc
  pc2 : RegisterPc

/-- One step of the race: the first goroutine moves if `first`, else the second. -/
def raceStep (w1 w2 : World) (pod : Pod) (s : Race) (first : Bool) : Race :=
  if first then
    let r := registerStep w1 pod s.cache s.pc1
    ⟨r.1, s.trace ++ r.2.1, r.2.2, s.pc2⟩
  else
    let r := registerStep w2 pod s.cache s.pc2
    ⟨r.1, s.trace ++ r.2.1, s.pc1, r.2.2⟩

/-- The race under a schedule, from a given map, both goroutines at the start. -/
def runRace (w1 w2 : World) (pod : Pod) (cache : Cache) (schedule : List Bool) : Race :=
  schedule.foldl (raceStep w1 w2 pod) ⟨cache, [], RegisterPc.start, RegisterPc.start⟩

/-- The schedule in which both goroutines run `d.get` before either runs `d.Set`. -/
def scheduleBothMiss : List Bool := [true, false, true, false, true, false]

/-- The schedule in which the first goroutine finishes before the second starts. -/
def scheduleOneByOne : List Bool := [true, true, true, false, false, false]

/-! ## Sample inputs -/

/-- A world in which every collaborator succeeds; the probe answers 404. -/
def wOk : World :=
  { discoveryNew := (some 1, none)
    httpGet := fun _ => (some ⟨404⟩, none)
    sdkRegister := fun _ _ => Outcome.ret none
    sdkCancel := fun _ _ => Outcome.ret ()
    now := 0 }

/-- A sample pod without containers, with the given resource version and phase. -/
def podA (rv phase : String) : Pod :=
  { Name := "a", Namespace := "ns", ResourceVersion := rv, Phase := phase, PodIP := "10.0.0.1",
    ContainerStatuses := [], Containers := [] }

/-- A world in which `discovery.New` fails with a nil client and the SDK
returns without an error even on a nil client. -/
def wNewFails : World :=
  { discoveryNew := (none, some "dial error")
    httpGet := fun _ => (some ⟨404⟩, none)
    sdkRegister := fun _ _ => Outcome.ret none
    sdkCancel := fun _ _ => Outcome.ret ()
    now := 0 }

/-- A world in which the SDK operations panic. -/
def wPanic : World :=
  { discoveryNew := (some 1, none)
    httpGet := fun _ => (some ⟨404⟩, none)
    sdkRegister := fun _ _ => Outcome.panic
    sdkCancel := fun _ _ => Outcome.panic
    now := 0 }

/-- A world in which the probe answers with the given status code. -/
def wProbe (code : Int) : World :=
  { discoveryNew := (some 1, none)
    httpGet := fun _ => (some ⟨code⟩, none)
    sdkRegister := fun _ _ => Outcome.ret none
    sdkCancel := fun _ _ => Outcome.ret ()
    now := 0 }

/-- The pod of the last-writer-wins example: the first container sets
`IDG_UNIQUEID=svc1` and `IDG_WEIGHT=20`, the second sets `IDG_WEIGHT=5`. -/
def podTwo : Pod :=
  { Name := "a", Namespace := "ns", ResourceVersion := "1", Phase := "Running",
    PodIP := "10.0.0.1", ContainerStatuses := [⟨true⟩, ⟨true⟩],
    Containers :=
      [⟨[⟨"IDG_UNIQUEID", "svc1"⟩, ⟨"IDG_WEIGHT", "20"⟩]⟩, ⟨[⟨"IDG_WEIGHT", "5"⟩]⟩] }

/-- A pod whose second container is not ready. -/
def podNotReady : Pod :=
  { Name := "b", Namespace := "ns", ResourceVersion := "1", Phase := "Running",
    PodIP := "10.0.0.2", ContainerStatuses := [⟨true⟩, ⟨false⟩], Containers := [] }

/-- A world in which the SDK register operation returns an error. -/
def wRegisterFails : World :=
  { discoveryNew := (some 1, none)
    httpGet := fun _ => (some ⟨404⟩, none)
    sdkRegister := fun _ _ => Outcome.ret (some "rpc error")
    sdkCancel := fun _ _ => Outcome.ret ()
    now := 0 }

/-- A world in which every collaborator succeeds and `discovery.New` returns
the client `h`. -/
def wHandle (h : Handle) : World :=
  { discoveryNew := (some h, none)
    httpGet := fun _ => (some ⟨404⟩, none)
    sdkRegister := fun _ _ => Outcome.ret none
    sdkCancel := fun _ _ => Outcome.ret ()
    now := 0 }

/-- A map that holds the client `h` for the key `ns/a` and nothing else. -/
def cacheA (h : Handle) : Cache := fun k => if k = "ns/a" then some (some h) else none

/-! ## The descriptor builder -/

/-- The nested loops scan the variables of `podEnv` in order. -/
theorem scanContainers_eq_foldl (st : Instance × StrMap) (cs : List Container) :
    scanContainers st cs = (cs.flatMap Container.Env).foldl scanEnvVar st := by
  induction cs generalizing st with
  | nil => rfl
  | cons c rest ih =>
    simp only [scanContainers, List.foldl_cons, List.flatMap_cons, List.foldl_append] at ih ⊢
    exact ih _

/-- One step of the scan leaves the four fields of the struct literal and the `Metadata` field alone. -/
theorem scanEnvVar_fixed (st : Instance × StrMap) (v : EnvVar) :
    (scanEnvVar st v).1.Hostname = st.1.Hostname ∧ (scanEnvVar st v).1.Addrs = st.1.Addrs
    ∧ (scanEnvVar st v).1.Status = st.1.Status ∧ (scanEnvVar st v).1.Metadata = st.1.Metadata
    ∧ (scanEnvVar st v).1.LastTs = st.1.LastTs := by
  simp only [scanEnvVar]
  split_ifs <;> exact ⟨rfl, rfl, rfl, rfl, rfl⟩

/-- The scan leaves the four fields of the struct literal and the `Metadata` field alone. -/
theorem scan_fixed (env : List EnvVar) (st : Instance × StrMap) :
    (env.foldl scanEnvVar st).1.Hostname = st.1.Hostname
    ∧ (env.foldl scanEnvVar st).1.Addrs = st.1.Addrs
    ∧ (env.foldl scanEnvVar st).1.Status = st.1.Status
    ∧ (env.foldl scanEnvVar st).1.Metadata = st.1.Metadata
    ∧ (env.foldl scanEnvVar st).1.LastTs = st.1.LastTs := by
  induction env generalizing st with
  | nil => exact ⟨rfl, rfl, rfl, rfl, rfl⟩
  | cons v rest ih =>
    rw [List.foldl_cons]
    obtain ⟨h1, h2, h3, h4, h5⟩ := ih (scanEnvVar st v)
    obtain ⟨g1, g2, g3, g4, g5⟩ := scanEnvVar_fixed st v
    exact ⟨h1.trans g1, h2.trans g2, h3.trans g3, h4.trans g4, h5.trans g5⟩

/-- One step of the scan sets `AppID` exactly at a variable named `IDG_UNIQUEID`. -/
theorem scanEnvVar_AppID (st : Instance × StrMap) (v : EnvVar) :
    (scanEnvVar st v).1.AppID = if v.Name = "IDG_UNIQUEID" then v.Value else st.1.AppID := by
  simp only [scanEnvVar]
  split_ifs <;> rfl

/-- The last value after one more leading variable. -/
theorem lastValue_cons (name : String) (v : EnvVar) (rest : List EnvVar) (d : String) :
    (lastValue name (v :: rest)).getD d
      = (lastValue name rest).getD (if v.Name = name then v.Value else d) := by
  unfold lastValue
  by_cases h : v.Name = name
  · simp only [List.filter_cons, h, decide_True, if_true, List.getLast?_cons]
    cases (List.filter (fun v => decide (v.Name = name)) rest).getLast? <;> rfl
  · simp only [List.filter_cons, h, decide_False, if_false]
    rfl

/-- After the scan `AppID` is the value of the last `IDG_UNIQUEID`, if any. -/
theorem scan_AppID (env : List EnvVar) (st : Instance × StrMap) :
    (env.foldl scanEnvVar st).1.AppID = (lastValue "IDG_UNIQUEID" env).getD st.1.AppID := by
  induction env generalizing st with
  | nil => rfl
  | cons v rest ih =>
    rw [List.foldl_cons, ih, lastValue_cons, scanEnvVar_AppID]

/-- The fields of the descriptor `Discover.instance` returns that the dispatcher's properties rely on. -/
theorem buildInstance_fields (w : World) (pod : Pod) (b : Bool) :
    (Discover.instance w pod b).2.Hostname = pod.Name
    ∧ (Discover.instance w pod b).2.Addrs = [podAddr pod]
    ∧ (Discover.instance w pod b).2.Status = (instanceStatus w pod b).2
    ∧ (Discover.instance w pod b).2.Metadata = []
    ∧ (Discover.instance w pod b).2.AppID = (lastValue "IDG_UNIQUEID" (podEnv pod)).getD "" := by
  simp only [Discover.instance, instanceScan, scanContainers_eq_foldl]
  obtain ⟨h1, h2, h3, h4, _⟩ :=
    scan_fixed (pod.Containers.flatMap Container.Env)
      (instanceLiteral w pod (instanceStatus w pod b).2, [])
  exact ⟨h1, h2, h3, h4, scan_AppID _ _⟩

/-! ## Traces of the registrar -/

/-- Method `Discover.Set` calls `discovery.New` once. -/
theorem Set_trace (w : World) (cache : Cache) (pod : Pod) :
    (Discover.Set w cache pod).2.1 = [Event.discoveryNew] := by
  simp only [Discover.Set]
  split <;> rfl

/-- Method `Discover.healthCheck` makes one GET request. -/
theorem healthCheck_trace (w : World) (pod : Pod) :
    (Discover.healthCheck w pod).1 = [Event.httpGet (podAddr pod ++ "/healthcheck")] := by
  unfold Discover.healthCheck
  simp only []
  split
  · rfl
  · split
    · rfl
    · split <;> rfl


/-- Get-or-set calls `discovery.New` at most once and nothing else. -/
theorem getOrSet_trace (w : World) (cache : Cache) (pod : Pod) :
    (getOrSet w cache pod).2.1 = [] ∨ (getOrSet w cache pod).2.1 = [Event.discoveryNew] := by
  simp only [getOrSet]
  split
  · right; exact Set_trace w cache pod
  · left; rfl

/-- Method `Discover.instance` probes exactly when the probe is not disabled. -/
theorem buildInstance_trace (w : World) (pod : Pod) (b : Bool) :
    (Discover.instance w pod b).1
      = if b then [] else [Event.httpGet (podAddr pod ++ "/healthcheck")] := by
  simp only [Discover.instance, instanceScan, instanceStatus]
  cases b
  · simp only [Bool.not_false, if_true]
    split <;> simp [healthCheck_trace]
  · simp

/-- The calls of `Discover.Register`, in order. -/
theorem Register_trace (w : World) (cache : Cache) (pod : Pod) :
    (Discover.Register w cache pod).trace
      = [Event.Register pod] ++ (getOrSet w cache pod).2.1
        ++ [Event.httpGet (podAddr pod ++ "/healthcheck")]
        ++ [Event.sdkRegister (getOrSet w cache pod).2.2 (Discover.instance w pod false).2] := by
  simp only [Discover.Register]
  simp only [buildInstance_trace]
  split <;> rfl

/-- The calls of `Discover.Cancel`, in order. -/
theorem Cancel_trace (w : World) (cache : Cache) (pod : Pod) :
    (Discover.Cancel w cache pod).trace
      = [Event.Cancel pod] ++ (getOrSet w cache pod).2.1
        ++ [Event.sdkCancel (getOrSet w cache pod).2.2 (Discover.instance w pod true).2.AppID] := by
  simp only [Discover.Cancel]
  simp only [buildInstance_trace]
  split <;> simp [getOrSet]

/-- Method `Discover.Register` is entered once. -/
theorem registerCalls_Register (w : World) (cache : Cache) (pod : Pod) :
    registerCalls (Discover.Register w cache pod).trace = [pod] := by
  rw [Register_trace]
  rcases getOrSet_trace w cache pod with h | h <;> simp [h, registerCalls]

/-- Method `Discover.Register` never enters `Discover.Cancel`. -/
theorem cancelCalls_Register (w : World) (cache : Cache) (pod : Pod) :
    cancelCalls (Discover.Register w cache pod).trace = [] := by
  rw [Register_trace]
  rcases getOrSet_trace w cache pod with h | h <;> simp [h, cancelCalls]

/-- Method `Discover.Register` inserts nothing into the queue. -/
theorem queueAdds_Register (w : World) (cache : Cache) (pod : Pod) :
    queueAdds (Discover.Register w cache pod).trace = [] := by
  rw [Register_trace]
  rcases getOrSet_trace w cache pod with h | h <;> simp [h, queueAdds]

/-- Method `Discover.Register` calls the SDK register operation once. -/
theorem sdkRegisterCalls_Register (w : World) (cache : Cache) (pod : Pod) :
    sdkRegisterCalls (Discover.Register w cache pod).trace
      = [((getOrSet w cache pod).2.2, (Discover.instance w pod false).2)] := by
  rw [Register_trace]
  rcases getOrSet_trace w cache pod with h | h <;> simp [h, sdkRegisterCalls]

/-- Method `Discover.Register` never calls the SDK cancel operation. -/
theorem sdkCancelCalls_Register (w : World) (cache : Cache) (pod : Pod) :
    sdkCancelCalls (Discover.Register w cache pod).trace = [] := by
  rw [Register_trace]
  rcases getOrSet_trace w cache pod with h | h <;> simp [h, sdkCancelCalls]

/-- Method `Discover.Cancel` is entered once. -/
theorem cancelCalls_Cancel (w : World) (cache : Cache) (pod : Pod) :
    cancelCalls (Discover.Cancel w cache pod).trace = [pod] := by
  rw [Cancel_trace]
  rcases getOrSet_trace w cache pod with h | h <;> simp [h, cancelCalls]

/-- Method `Discover.Cancel` never enters `Discover.Register`. -/
theorem registerCalls_Cancel (w : World) (cache : Cache) (pod : Pod) :
    registerCalls (Discover.Cancel w cache pod).trace = [] := by
  rw [Cancel_trace]
  rcases getOrSet_trace w cache pod with h | h <;> simp [h, registerCalls]

/-- Method `Discover.Cancel` inserts nothing into the queue. -/
theorem queueAdds_Cancel (w : World) (cache : Cache) (pod : Pod) :
    queueAdds (Discover.Cancel w cache pod).trace = [] := by
  rw [Cancel_trace]
  rcases getOrSet_trace w cache pod with h | h <;> simp [h, queueAdds]

/-- Method `Discover.Cancel` calls the SDK cancel operation once. -/
theorem sdkCancelCalls_Cancel (w : World) (cache : Cache) (pod : Pod) :
    sdkCancelCalls (Discover.Cancel w cache pod).trace
      = [((getOrSet w cache pod).2.2, (Discover.instance w pod true).2.AppID)] := by
  rw [Cancel_trace]
  rcases getOrSet_trace w cache pod with h | h <;> simp [h, sdkCancelCalls]

/-- Method `Discover.Cancel` never calls the SDK register operation. -/
theorem sdkRegisterCalls_Cancel (w : World) (cache : Cache) (pod : Pod) :
    sdkRegisterCalls (Discover.Cancel w cache pod).trace = [] := by
  rw [Cancel_trace]
  rcases getOrSet_trace w cache pod with h | h <;> simp [h, sdkRegisterCalls]

/-- The events of `enqueueWork` are queue insertions, at most one. -/
theorem enqueueWork_trace (action : String) (obj : Obj) :
    (enqueueWork action obj).1 = [] ∨ ∃ s, (enqueueWork action obj).1 = [Event.queueAdd s] := by
  unfold enqueueWork
  split
  · left; rfl
  · left; rfl
  · simp only []
    split
    · left; rfl
    · right; exact ⟨_, rfl⟩

/-- After a registrar call the handler adds queue insertions only, at most one. -/
theorem afterCall_trace (r : Run (Option Error)) (action : String) (obj : Obj) :
    (afterCall r action obj).trace = r.trace
      ∨ ∃ s, (afterCall r action obj).trace = r.trace ++ [Event.queueAdd s] := by
  unfold afterCall
  split
  · left; rfl
  · split
    · rcases enqueueWork_trace action obj with h | ⟨s, h⟩
      · left; simp [h]
      · right; exact ⟨s, by simp [h]⟩
    · left; rfl

/-- Enqueueing does not touch the cache. -/
theorem afterCall_cache (r : Run (Option Error)) (action : String) (obj : Obj) :
    (afterCall r action obj).cache = r.cache := by
  unfold afterCall
  split
  · rfl
  · split <;> rfl

/-- Enqueueing adds no `Register` call. -/
theorem registerCalls_afterCall (r : Run (Option Error)) (action : String) (obj : Obj) :
    registerCalls (afterCall r action obj).trace = registerCalls r.trace := by
  rcases afterCall_trace r action obj with h | ⟨s, h⟩ <;> simp [h, registerCalls]

/-- Enqueueing adds no `Cancel` call. -/
theorem cancelCalls_afterCall (r : Run (Option Error)) (action : String) (obj : Obj) :
    cancelCalls (afterCall r action obj).trace = cancelCalls r.trace := by
  rcases afterCall_trace r action obj with h | ⟨s, h⟩ <;> simp [h, cancelCalls]

/-- Enqueueing adds no SDK register call. -/
theorem sdkRegisterCalls_afterCall (r : Run (Option Error)) (action : String) (obj : Obj) :
    sdkRegisterCalls (afterCall r action obj).trace = sdkRegisterCalls r.trace := by
  rcases afterCall_trace r action obj with h | ⟨s, h⟩ <;> simp [h, sdkRegisterCalls]

/-- Enqueueing adds no SDK cancel call. -/
theorem sdkCancelCalls_afterCall (r : Run (Option Error)) (action : String) (obj : Obj) :
    sdkCancelCalls (afterCall r action obj).trace = sdkCancelCalls r.trace := by
  rcases afterCall_trace r action obj with h | ⟨s, h⟩ <;> simp [h, sdkCancelCalls]

/-- The address of a pod is `http://<pod-ip>:80`. -/
theorem podAddr_eq (pod : Pod) : podAddr pod = "http://" ++ pod.PodIP ++ ":80" := by
  simp [podAddr, String.append_assoc]

/-- The cache after `Discover.Cancel`: get-or-set, then the deferred delete. -/
theorem Cancel_cache (w : World) (cache : Cache) (pod : Pod) :
    (Discover.Cancel w cache pod).cache = Discover.delete (getOrSet w cache pod).1 pod := by
  simp only [Discover.Cancel]
  split <;> rfl

/-- Get-or-set touches no key but the pod's. -/
theorem getOrSet_other (w : World) (cache : Cache) (pod : Pod) (k : String)
    (hk : k ≠ podKey pod) : (getOrSet w cache pod).1 k = cache k := by
  simp only [getOrSet, Discover.Set]
  split
  · split
    · rfl
    · simp [hk]
  · rfl

/-- Method `Discover.delete` touches no key but the pod's. -/
theorem delete_other (cache : Cache) (pod : Pod) (k : String) (hk : k ≠ podKey pod) :
    Discover.delete cache pod k = cache k := by
  rcases hc : cache (podKey pod) with _ | _ | h <;> simp [Discover.delete, hc, hk]

/-- After `Discover.delete` the pod's key has no live client. -/
theorem delete_liveHandle (cache : Cache) (pod : Pod) :
    liveHandle (Discover.delete cache pod) (podKey pod) = none := by
  rcases hc : cache (podKey pod) with _ | _ | h <;> simp [Discover.delete, liveHandle, hc]

/-- Method `Discover.delete` removes the pod's key unless it maps to nil. -/
theorem delete_absent (cache : Cache) (pod : Pod) (h : cache (podKey pod) ≠ some none) :
    Discover.delete cache pod (podKey pod) = none := by
  rcases hc : cache (podKey pod) with _ | _ | h
  · simp [Discover.delete, hc]
  · exact absurd hc h
  · simp [Discover.delete, hc]

/-- Get-or-set leaves no nil entry at the pod's key unless one was there or `discovery.New` returned nil without an error. -/
theorem getOrSet_not_nil (w : World) (cache : Cache) (pod : Pod)
    (hc : cache (podKey pod) ≠ some none) (hw : w.discoveryNew ≠ (none, none)) :
    (getOrSet w cache pod).1 (podKey pod) ≠ some none := by
  simp only [getOrSet, Discover.Set, Discover.get]
  cases hk : cache (podKey pod) with
  | some d => simpa [hk] using hc
  | none =>
    simp only [Bool.not_false, if_true]
    split
    · simp [hk]
    · next he =>
      simp only [if_true]
      intro h
      apply hw
      have h1 : w.discoveryNew.1 = none := by simpa using h
      have h2 : w.discoveryNew.2 = none := by simpa using he
      exact Prod.ext h1 h2

/-- When the key is absent and `discovery.New` fails, get-or-set yields the client `discovery.New` returned and stores nothing. -/
theorem getOrSet_failed (w : World) (cache : Cache) (pod : Pod)
    (hc : cache (podKey pod) = none) (he : w.discoveryNew.2 ≠ none) :
    getOrSet w cache pod = (cache, [Event.discoveryNew], w.discoveryNew.1) := by
  simp [getOrSet, Discover.get, Discover.Set, hc, he]

/-- Method `Discover.Register` ends as the SDK register call ends. -/
theorem Register_out (w : World) (cache : Cache) (pod : Pod) :
    (Discover.Register w cache pod).out
      = w.sdkRegister (getOrSet w cache pod).2.2 (Discover.instance w pod false).2 := by
  simp only [Discover.Register]
  split <;> next h => rw [h]

/-- Method `Discover.Cancel` returns the nil error or panics. -/
theorem Cancel_out (w : World) (cache : Cache) (pod : Pod) :
    (Discover.Cancel w cache pod).out = Outcome.ret none
    ∨ (Discover.Cancel w cache pod).out = Outcome.panic := by
  simp only [Discover.Cancel]
  split
  · left; rfl
  · right; rfl

/-- The readiness loop yields NotReceive exactly when some container is not ready. -/
theorem readinessStatus_notReceive (l : List ContainerStatus) :
    readinessStatus l = InstanceStatus.NotReceive ↔ ∃ cs ∈ l, cs.Ready = false := by
  induction l with
  | nil => simp [readinessStatus]
  | cons c rest ih =>
    cases hr : c.Ready <;> simp [readinessStatus, hr, ih]

/-! ## The event dispatcher -/

/-- C1. For pod snapshots `old`, `new` with different resource versions, `OnUpdate`
enters `Discover.Cancel` exactly once, with `new`, and never `Discover.Register`
when `old` is Running and `new` is not; it enters `Discover.Register` exactly
once, with `new`, and never `Discover.Cancel` when `new` is Running and `old`
is not; it makes no call at all when the phases are equal or neither is
Running. -/
theorem OnUpdate_phase_transition (w : World) (cache : Cache) (old new : Pod)
    (hrv : old.ResourceVersion ≠ new.ResourceVersion) :
    (old.Phase = PodRunning → new.Phase ≠ PodRunning →
      cancelCalls (OnUpdate w cache (Obj.pod (some old)) (Obj.pod (some new))).trace = [new]
      ∧ registerCalls (OnUpdate w cache (Obj.pod (some old)) (Obj.pod (some new))).trace = [])
    ∧ (new.Phase = PodRunning → old.Phase ≠ PodRunning →
      registerCalls (OnUpdate w cache (Obj.pod (some old)) (Obj.pod (some new))).trace = [new]
      ∧ cancelCalls (OnUpdate w cache (Obj.pod (some old)) (Obj.pod (some new))).trace = [])
    ∧ (old.Phase = new.Phase ∨ (old.Phase ≠ PodRunning ∧ new.Phase ≠ PodRunning) →
      (OnUpdate w cache (Obj.pod (some old)) (Obj.pod (some new))).trace = []) := by
  have hU : OnUpdate w cache (Obj.pod (some old)) (Obj.pod (some new))
      = if old.Phase = new.Phase then ⟨cache, [], Outcome.ret ()⟩
        else if old.Phase = PodRunning ∧ old.Phase ≠ new.Phase then
          afterCall (Discover.Cancel w cache new) ActionDelete (Obj.pod (some new))
        else if new.Phase = PodRunning ∧ old.Phase ≠ new.Phase then
          afterCall (Discover.Register w cache new) ActionAdd (Obj.pod (some new))
        else ⟨cache, [], Outcome.ret ()⟩ := by
    simp [OnUpdate, asPod, hrv]
  rw [hU]
  refine ⟨?_, ?_, ?_⟩
  · intro ho hn
    have hne : old.Phase ≠ new.Phase := by rw [ho]; exact fun h => hn h.symm
    rw [if_neg hne, if_pos ⟨ho, hne⟩, cancelCalls_afterCall, registerCalls_afterCall,
      cancelCalls_Cancel, registerCalls_Cancel]
    exact ⟨rfl, rfl⟩
  · intro hn ho
    have hne : old.Phase ≠ new.Phase := by rw [hn]; exact ho
    rw [if_neg hne, if_neg (fun h => ho h.1), if_pos ⟨hn, hne⟩, cancelCalls_afterCall,
      registerCalls_afterCall, cancelCalls_Register, registerCalls_Register]
    exact ⟨rfl, rfl⟩
  · rintro (h | ⟨ho, hn⟩)
    · rw [if_pos h]
    · by_cases h : old.Phase = new.Phase
      · rw [if_pos h]
      · rw [if_neg h, if_neg (fun h' => ho h'.1), if_neg (fun h' => hn h'.1)]

/-- C1, at a Running pod that turns Pending. -/
theorem OnUpdate_phase_transition_witness :
    (podA "1" "Running").ResourceVersion ≠ (podA "2" "Pending").ResourceVersion
    ∧ cancelCalls (OnUpdate wOk (fun _ => none) (Obj.pod (some (podA "1" "Running")))
        (Obj.pod (some (podA "2" "Pending")))).trace = [podA "2" "Pending"] :=
  ⟨by decide,
   ((OnUpdate_phase_transition wOk (fun _ => none) (podA "1" "Running") (podA "2" "Pending")
      (by decide)).1 (by decide) (by decide)).1⟩

/-- C2. For a pod snapshot with phase Running, `OnAdd` enters `Discover.Register`
exactly once (and never `Discover.Cancel`), and the SDK register operation is
called exactly once, with a descriptor whose hostname is the pod name and whose
address list is the single entry `http://<pod-ip>:80`; for a pod snapshot whose
phase is not Running, `OnAdd` makes no call at all. -/
theorem OnAdd_running_registers (w : World) (cache : Cache) (pod : Pod) :
    (pod.Phase = PodRunning →
      registerCalls (OnAdd w cache (Obj.pod (some pod))).trace = [pod]
      ∧ cancelCalls (OnAdd w cache (Obj.pod (some pod))).trace = []
      ∧ ∃ dis ins, sdkRegisterCalls (OnAdd w cache (Obj.pod (some pod))).trace = [(dis, ins)]
          ∧ ins.Hostname = pod.Name ∧ ins.Addrs = ["http://" ++ pod.PodIP ++ ":80"])
    ∧ (pod.Phase ≠ PodRunning → (OnAdd w cache (Obj.pod (some pod))).trace = []) := by
  constructor
  · intro h
    have hA : OnAdd w cache (Obj.pod (some pod))
        = afterCall (Discover.Register w cache pod) ActionAdd (Obj.pod (some pod)) := by
      simp [OnAdd, asPod, h]
    rw [hA, registerCalls_afterCall, cancelCalls_afterCall, sdkRegisterCalls_afterCall,
      registerCalls_Register, cancelCalls_Register, sdkRegisterCalls_Register]
    refine ⟨rfl, rfl, _, _, rfl, ?_, ?_⟩
    · exact (buildInstance_fields w pod false).1
    · rw [(buildInstance_fields w pod false).2.1, podAddr_eq]
  · intro h
    simp [OnAdd, asPod, h]

/-- C2, at a Running pod. -/
theorem OnAdd_running_registers_witness :
    (podA "1" "Running").Phase = PodRunning
    ∧ registerCalls (OnAdd wOk (fun _ => none) (Obj.pod (some (podA "1" "Running")))).trace
        = [podA "1" "Running"] :=
  ⟨by decide, ((OnAdd_running_registers wOk (fun _ => none) (podA "1" "Running")).1 (by decide)).1⟩

/-- C6. For pod snapshots with equal resource versions, whatever their phases,
`OnUpdate` makes no `Register` call, no `Cancel` call and no queue insertion:
it makes no call at all. -/
theorem OnUpdate_resync_noop (w : World) (cache : Cache) (old new : Pod)
    (hrv : old.ResourceVersion = new.ResourceVersion) :
    registerCalls (OnUpdate w cache (Obj.pod (some old)) (Obj.pod (some new))).trace = []
    ∧ cancelCalls (OnUpdate w cache (Obj.pod (some old)) (Obj.pod (some new))).trace = []
    ∧ queueAdds (OnUpdate w cache (Obj.pod (some old)) (Obj.pod (some new))).trace = []
    ∧ (OnUpdate w cache (Obj.pod (some old)) (Obj.pod (some new))).trace = [] := by
  have hU : OnUpdate w cache (Obj.pod (some old)) (Obj.pod (some new))
      = ⟨cache, [], Outcome.ret ()⟩ := by
    simp [OnUpdate, asPod, hrv]
  rw [hU]
  exact ⟨rfl, rfl, rfl, rfl⟩

/-- C6, at a resync of a pod whose phase differs. -/
theorem OnUpdate_resync_noop_witness :
    (podA "7" "Running").ResourceVersion = (podA "7" "Failed").ResourceVersion
    ∧ (OnUpdate wOk (fun _ => none) (Obj.pod (some (podA "7" "Running")))
        (Obj.pod (some (podA "7" "Failed")))).trace = [] :=
  ⟨by decide,
   (OnUpdate_resync_noop wOk (fun _ => none) (podA "7" "Running") (podA "7" "Failed")
      (by decide)).2.2.2⟩

/-- C3. For every pod snapshot, cache and world, `OnDelete` calls the SDK cancel
operation exactly once, with the value of the pod's last `IDG_UNIQUEID`
variable (the empty string when there is none) as application id, within
exactly one `Discover.Cancel`; afterwards the pod's key has no live client in
the cache (the key is absent, unless a nil pointer was stored under it or
`discovery.New` returned nil without an error), whether the SDK call returned
or panicked and whether or not the key was cached before; every other key is
unchanged. -/
theorem OnDelete_cancels_and_evicts (w : World) (cache : Cache) (pod : Pod) :
    (∃ dis, sdkCancelCalls (OnDelete w cache (Obj.pod (some pod))).trace
        = [(dis, (lastValue "IDG_UNIQUEID" (podEnv pod)).getD "")])
    ∧ cancelCalls (OnDelete w cache (Obj.pod (some pod))).trace = [pod]
    ∧ liveHandle (OnDelete w cache (Obj.pod (some pod))).cache (podKey pod) = none
    ∧ (cache (podKey pod) ≠ some none → w.discoveryNew ≠ (none, none) →
        (OnDelete w cache (Obj.pod (some pod))).cache (podKey pod) = none)
    ∧ ∀ k, k ≠ podKey pod → (OnDelete w cache (Obj.pod (some pod))).cache k = cache k := by
  have hD : OnDelete w cache (Obj.pod (some pod))
      = afterCall (Discover.Cancel w cache pod) ActionDelete (Obj.pod (some pod)) := by
    simp [OnDelete, asPod]
  rw [hD, sdkCancelCalls_afterCall, cancelCalls_afterCall, afterCall_cache,
    sdkCancelCalls_Cancel, cancelCalls_Cancel, Cancel_cache,
    (buildInstance_fields w pod true).2.2.2.2]
  refine ⟨⟨_, rfl⟩, rfl, delete_liveHandle _ pod, ?_, ?_⟩
  · intro hc hw
    exact delete_absent _ pod (getOrSet_not_nil w cache pod hc hw)
  · intro k hk
    rw [delete_other _ pod k hk, getOrSet_other w cache pod k hk]

/-- C3, at a pod whose key is cached, in a world where the SDK call panics. -/
theorem OnDelete_cancels_and_evicts_witness :
    (fun k => if k = "ns/a" then some (some 3) else none : Cache) (podKey (podA "1" "Running"))
        ≠ some none
    ∧ wPanic.discoveryNew ≠ (none, none)
    ∧ (OnDelete wPanic (fun k => if k = "ns/a" then some (some 3) else none)
        (Obj.pod (some (podA "1" "Running")))).cache (podKey (podA "1" "Running")) = none :=
  ⟨by decide, by decide,
   (OnDelete_cancels_and_evicts wPanic (fun k => if k = "ns/a" then some (some 3) else none)
      (podA "1" "Running")).2.2.2.1 (by decide) (by decide)⟩

/-! ## The registrar and the descriptor builder -/

/-- C4 (what the code does). When the pod's key is not cached and `discovery.New`
fails with a nil client, `Discover.Register` still calls the SDK register
operation, on the nil client, and ends as that call ends; `Discover.Cancel`
still calls the SDK cancel operation, on the nil client, and never returns a
non-nil error. -/
theorem failed_creation_uses_nil_handle (w : World) (cache : Cache) (pod : Pod)
    (hc : cache (podKey pod) = none) (hn : w.discoveryNew.1 = none)
    (he : w.discoveryNew.2 ≠ none) :
    sdkRegisterCalls (Discover.Register w cache pod).trace
        = [(none, (Discover.instance w pod false).2)]
    ∧ (Discover.Register w cache pod).out
        = w.sdkRegister none (Discover.instance w pod false).2
    ∧ sdkCancelCalls (Discover.Cancel w cache pod).trace
        = [(none, (Discover.instance w pod true).2.AppID)]
    ∧ ∀ e, (Discover.Cancel w cache pod).out ≠ Outcome.ret (some e) := by
  refine ⟨?_, ?_, ?_, ?_⟩
  · rw [sdkRegisterCalls_Register, getOrSet_failed w cache pod hc he, hn]
  · rw [Register_out, getOrSet_failed w cache pod hc he, hn]
  · rw [sdkCancelCalls_Cancel, getOrSet_failed w cache pod hc he, hn]
  · intro e h
    rcases Cancel_out w cache pod with h' | h' <;> rw [h'] at h <;> cases h

/-- C4, at an empty cache in a world where `discovery.New` fails. -/
theorem failed_creation_uses_nil_handle_witness :
    (fun _ => none : Cache) (podKey podTwo) = none
    ∧ wNewFails.discoveryNew.1 = none
    ∧ wNewFails.discoveryNew.2 ≠ none
    ∧ (Discover.Register wNewFails (fun _ => none) podTwo).out
        = wNewFails.sdkRegister none (Discover.instance wNewFails podTwo false).2 :=
  ⟨rfl, rfl, by decide,
   (failed_creation_uses_nil_handle wNewFails (fun _ => none) podTwo rfl rfl (by decide)).2.1⟩

/-- C5 (what the code does). The probe reports `ok = false` with a nil error for
the response code 200 and `ok = true` for the codes 404 and 500. -/
theorem healthCheck_inverted :
    (Discover.healthCheck (wProbe 200) podTwo).2 = (false, none)
    ∧ (Discover.healthCheck (wProbe 404) podTwo).2 = (true, none)
    ∧ (Discover.healthCheck (wProbe 500) podTwo).2 = (true, none) := by
  decide

/-- C7 (what the code does). `OnUpdate` panics whenever its old or its new payload
is not a pod; `OnAdd` and `OnDelete` return on a payload that is not a pod,
with no call made. -/
theorem OnUpdate_non_pod_panics (w : World) (cache : Cache) (obj : Obj) :
    (OnUpdate w cache Obj.other obj).out = Outcome.panic
    ∧ (OnUpdate w cache obj Obj.other).out = Outcome.panic
    ∧ (OnAdd w cache Obj.other).out = Outcome.ret ()
    ∧ (OnAdd w cache Obj.other).trace = []
    ∧ (OnDelete w cache Obj.other).out = Outcome.ret ()
    ∧ (OnDelete w cache Obj.other).trace = [] := by
  refine ⟨?_, ?_, rfl, rfl, rfl, rfl⟩
  · simp [OnUpdate, asPod]
  · rcases obj with (_ | p) | _ <;> simp [OnUpdate, asPod]

/-- C8 (what the code does). The descriptor `Discover.instance` returns has no
`weight` entry in its metadata, whatever the pod; and for a pod without
environment variables the local map `metadata` has none either. -/
theorem instance_has_no_weight (w : World) (pod : Pod) (noHealthCheck : Bool) :
    StrMap.find (Discover.instance w pod noHealthCheck).2.Metadata "weight" = none
    ∧ (podEnv pod = [] → StrMap.find (instanceScan w pod noHealthCheck).2.2 "weight" = none) := by
  constructor
  · rw [(buildInstance_fields w pod noHealthCheck).2.2.2.1]
    rfl
  · intro h
    simp only [instanceScan, scanContainers_eq_foldl]
    unfold podEnv at h
    rw [h]
    rfl

/-- C8, at a pod without containers. -/
theorem instance_has_no_weight_witness :
    podEnv (podA "1" "Running") = []
    ∧ StrMap.find (instanceScan wOk (podA "1" "Running") true).2.2 "weight" = none :=
  ⟨rfl, (instance_has_no_weight wOk (podA "1" "Running") true).2 rfl⟩

/-- C9 (what the code does). For the two containers of the example the descriptor
has application id `svc1` and an empty metadata mapping, without a `weight`
entry; the value `5` is in the local map `metadata` only. -/
theorem instance_last_writer_example :
    (Discover.instance wOk podTwo true).2.AppID = "svc1"
    ∧ StrMap.find (Discover.instance wOk podTwo true).2.Metadata "weight" = none
    ∧ (Discover.instance wOk podTwo true).2.Metadata = []
    ∧ StrMap.find (instanceScan wOk podTwo true).2.2 "weight" = some "5" := by
  decide

/-- C10. With the probe disabled, the descriptor `Discover.instance` returns has
status NotReceive if some container status is not ready, and status Receive
otherwise (in particular when there are no container statuses). -/
theorem instance_status_without_probe (w : World) (pod : Pod) :
    ((∃ cs ∈ pod.ContainerStatuses, cs.Ready = false) →
      (Discover.instance w pod true).2.Status = InstanceStatus.NotReceive)
    ∧ ((¬ ∃ cs ∈ pod.ContainerStatuses, cs.Ready = false) →
      (Discover.instance w pod true).2.Status = InstanceStatus.Receive) := by
  have hS : (Discover.instance w pod true).2.Status
      = readinessStatus pod.ContainerStatuses := by
    rw [(buildInstance_fields w pod true).2.2.1]
    simp [instanceStatus]
  rw [hS]
  constructor
  · intro h
    exact (readinessStatus_notReceive _).2 h
  · intro h
    cases hr : readinessStatus pod.ContainerStatuses with
    | Receive => rfl
    | NotReceive => exact absurd ((readinessStatus_notReceive _).1 hr) h

/-- C10, at a pod whose second container is not ready. -/
theorem instance_status_without_probe_witness :
    (∃ cs ∈ podNotReady.ContainerStatuses, cs.Ready = false)
    ∧ (Discover.instance wOk podNotReady true).2.Status = InstanceStatus.NotReceive :=
  ⟨⟨⟨false⟩, by decide, rfl⟩,
   (instance_status_without_probe wOk podNotReady).1 ⟨⟨false⟩, by decide, rfl⟩⟩

/-! ## Retry and replay -/

/-- The insertion `enqueueWork` makes for a pod: one item, `action:namespace/name`. -/
theorem enqueueWork_pod (action : String) (pod : Pod) :
    enqueueWork action (Obj.pod (some pod))
      = ([Event.queueAdd (action ++ ":" ++ (pod.Namespace ++ "/" ++ pod.Name))],
          Outcome.ret ()) := by
  simp [enqueueWork, asPod, MetaNamespaceKeyFunc]

/-- The handler's step after a registrar call that inserted nothing itself:
one insertion on an error, none on the nil error. -/
theorem afterCall_enqueues (r : Run (Option Error)) (action : String) (pod : Pod)
    (hq : queueAdds r.trace = []) :
    EnqueuesOnError r (afterCall r action (Obj.pod (some pod)))
      (action ++ ":" ++ (pod.Namespace ++ "/" ++ pod.Name)) := by
  constructor
  · intro e he
    have hA : (afterCall r action (Obj.pod (some pod))).trace
        = r.trace ++ [Event.queueAdd (action ++ ":" ++ (pod.Namespace ++ "/" ++ pod.Name))] := by
      simp [afterCall, he, enqueueWork_pod]
    rw [hA]
    refine ⟨rfl, ?_⟩
    unfold queueAdds at hq ⊢
    rw [List.filterMap_append, hq]
    rfl
  · intro he
    have hA : (afterCall r action (Obj.pod (some pod))).trace = r.trace := by
      simp [afterCall, he]
    rw [hA]
    exact ⟨rfl, hq⟩

/-- What `OnAdd` does with a Running pod. -/
theorem OnAdd_running (w : World) (cache : Cache) (pod : Pod) (h : pod.Phase = PodRunning) :
    OnAdd w cache (Obj.pod (some pod))
      = afterCall (Discover.Register w cache pod) ActionAdd (Obj.pod (some pod)) := by
  simp [OnAdd, asPod, h]

/-- What `OnDelete` does with a pod. -/
theorem OnDelete_pod (w : World) (cache : Cache) (pod : Pod) :
    OnDelete w cache (Obj.pod (some pod))
      = afterCall (Discover.Cancel w cache pod) ActionDelete (Obj.pod (some pod)) := by
  simp [OnDelete, asPod]

/-- What `OnUpdate` does when a Running pod stops running. -/
theorem OnUpdate_from_running (w : World) (cache : Cache) (old new : Pod)
    (hrv : old.ResourceVersion ≠ new.ResourceVersion) (ho : old.Phase = PodRunning)
    (hn : new.Phase ≠ PodRunning) :
    OnUpdate w cache (Obj.pod (some old)) (Obj.pod (some new))
      = afterCall (Discover.Cancel w cache new) ActionDelete (Obj.pod (some new)) := by
  have hne : old.Phase ≠ new.Phase := by rw [ho]; exact fun h => hn h.symm
  simp only [OnUpdate, asPod, Bool.and_self, decide_eq_true_eq, hrv, if_false]
  rw [if_neg hne, if_pos ⟨ho, hne⟩]

/-- What `OnUpdate` does when a pod starts running. -/
theorem OnUpdate_to_running (w : World) (cache : Cache) (old new : Pod)
    (hrv : old.ResourceVersion ≠ new.ResourceVersion) (hn : new.Phase = PodRunning)
    (ho : old.Phase ≠ PodRunning) :
    OnUpdate w cache (Obj.pod (some old)) (Obj.pod (some new))
      = afterCall (Discover.Register w cache new) ActionAdd (Obj.pod (some new)) := by
  have hne : old.Phase ≠ new.Phase := by rw [hn]; exact ho
  simp only [OnUpdate, asPod, Bool.and_self, decide_eq_true_eq, hrv, if_false]
  rw [if_neg hne, if_neg (fun h => ho h.1), if_pos ⟨hn, hne⟩]

/-- C11. For every handled event (Add of a Running pod, Delete, an Update with a
new resource version from Running to another phase or from another phase to
Running) the handler makes exactly one registrar call, with the pod, and then
inserts exactly one work item if that call returned an error and none if it
returned the nil error; the item is `action:namespace/name`, with `Add` for a
register and `Delete` for a cancel. -/
theorem handled_event_enqueues_on_error (w : World) (cache : Cache) (pod : Pod) :
    (pod.Phase = PodRunning →
      registerCalls (OnAdd w cache (Obj.pod (some pod))).trace = [pod]
      ∧ cancelCalls (OnAdd w cache (Obj.pod (some pod))).trace = []
      ∧ EnqueuesOnError (Discover.Register w cache pod) (OnAdd w cache (Obj.pod (some pod)))
          (ActionAdd ++ ":" ++ (pod.Namespace ++ "/" ++ pod.Name)))
    ∧ (cancelCalls (OnDelete w cache (Obj.pod (some pod))).trace = [pod]
      ∧ registerCalls (OnDelete w cache (Obj.pod (some pod))).trace = []
      ∧ EnqueuesOnError (Discover.Cancel w cache pod) (OnDelete w cache (Obj.pod (some pod)))
          (ActionDelete ++ ":" ++ (pod.Namespace ++ "/" ++ pod.Name)))
    ∧ (∀ old : Pod, old.ResourceVersion ≠ pod.ResourceVersion →
        old.Phase = PodRunning → pod.Phase ≠ PodRunning →
          cancelCalls (OnUpdate w cache (Obj.pod (some old)) (Obj.pod (some pod))).trace = [pod]
          ∧ registerCalls (OnUpdate w cache (Obj.pod (some old)) (Obj.pod (some pod))).trace = []
          ∧ EnqueuesOnError (Discover.Cancel w cache pod)
              (OnUpdate w cache (Obj.pod (some old)) (Obj.pod (some pod)))
              (ActionDelete ++ ":" ++ (pod.Namespace ++ "/" ++ pod.Name)))
    ∧ (∀ old : Pod, old.ResourceVersion ≠ pod.ResourceVersion →
        pod.Phase = PodRunning → old.Phase ≠ PodRunning →
          registerCalls (OnUpdate w cache (Obj.pod (some old)) (Obj.pod (some pod))).trace = [pod]
          ∧ cancelCalls (OnUpdate w cache (Obj.pod (some old)) (Obj.pod (some pod))).trace = []
          ∧ EnqueuesOnError (Discover.Register w cache pod)
              (OnUpdate w cache (Obj.pod (some old)) (Obj.pod (some pod)))
              (ActionAdd ++ ":" ++ (pod.Namespace ++ "/" ++ pod.Name))) := by
  refine ⟨?_, ?_, ?_, ?_⟩
  · intro h
    rw [OnAdd_running w cache pod h, registerCalls_afterCall, cancelCalls_afterCall]
    exact ⟨registerCalls_Register w cache pod, cancelCalls_Register w cache pod,
      afterCall_enqueues _ _ pod (queueAdds_Register w cache pod)⟩
  · rw [OnDelete_pod, registerCalls_afterCall, cancelCalls_afterCall]
    exact ⟨cancelCalls_Cancel w cache pod, registerCalls_Cancel w cache pod,
      afterCall_enqueues _ _ pod (queueAdds_Cancel w cache pod)⟩
  · intro old hrv ho hn
    rw [OnUpdate_from_running w cache old pod hrv ho hn, registerCalls_afterCall,
      cancelCalls_afterCall]
    exact ⟨cancelCalls_Cancel w cache pod, registerCalls_Cancel w cache pod,
      afterCall_enqueues _ _ pod (queueAdds_Cancel w cache pod)⟩
  · intro old hrv hn ho
    rw [OnUpdate_to_running w cache old pod hrv hn ho, registerCalls_afterCall,
      cancelCalls_afterCall]
    exact ⟨registerCalls_Register w cache pod, cancelCalls_Register w cache pod,
      afterCall_enqueues _ _ pod (queueAdds_Register w cache pod)⟩

/-- C11, at the Add of a Running pod whose registration fails. -/
theorem handled_event_enqueues_on_error_witness :
    (podA "1" "Running").Phase = PodRunning
    ∧ (Discover.Register wRegisterFails (fun _ => none) (podA "1" "Running")).out
        = Outcome.ret (some "rpc error")
    ∧ queueAdds (OnAdd wRegisterFails (fun _ => none) (Obj.pod (some (podA "1" "Running")))).trace
        = ["Add:ns/a"] :=
  ⟨by decide, by decide,
   (((handled_event_enqueues_on_error wRegisterFails (fun _ => none) (podA "1" "Running")).1
      (by decide)).2.2.1 "rpc error" (by decide)).2⟩

/-- Get-or-set with the key in the map: the stored pointer, no call, the map as it was. -/
theorem getOrSet_present (w : World) (cache : Cache) (pod : Pod)
    (hc : cache (podKey pod) ≠ none) :
    (getOrSet w cache pod).1 = cache ∧ (getOrSet w cache pod).2.1 = []
    ∧ cache (podKey pod) = some (getOrSet w cache pod).2.2 := by
  cases hk : cache (podKey pod) with
  | none => exact absurd hk hc
  | some d => simp [getOrSet, Discover.get, hk]

/-- The cache after `Discover.Register` is the cache after get-or-set. -/
theorem Register_cache (w : World) (cache : Cache) (pod : Pod) :
    (Discover.Register w cache pod).cache = (getOrSet w cache pod).1 := by
  simp only [Discover.Register]
  split <;> rfl

/-- Get-or-set removes no entry. -/
theorem getOrSet_keeps (w : World) (cache : Cache) (pod : Pod) (k : String) (p : Ptr)
    (hk : cache k = some p) : (getOrSet w cache pod).1 k = some p := by
  by_cases hkey : k = podKey pod
  · have hc : cache (podKey pod) ≠ none := by rw [← hkey, hk]; exact Option.some_ne_none p
    rw [(getOrSet_present w cache pod hc).1, hk]
  · rw [getOrSet_other w cache pod k hkey, hk]

/-- Get-or-set changes the pod's entry only when the key was absent and
`discovery.New` returned no error; the entry is then the new client. -/
theorem getOrSet_changes (w : World) (cache : Cache) (pod : Pod)
    (h : (getOrSet w cache pod).1 (podKey pod) ≠ cache (podKey pod)) :
    cache (podKey pod) = none ∧ w.discoveryNew.2 = none
    ∧ (getOrSet w cache pod).1 (podKey pod) = some w.discoveryNew.1 := by
  cases hk : cache (podKey pod) with
  | some d =>
    have hc : cache (podKey pod) ≠ none := by rw [hk]; exact Option.some_ne_none d
    exact absurd (congrFun (getOrSet_present w cache pod hc).1 (podKey pod)) h
  | none =>
    by_cases he : w.discoveryNew.2 = none
    · refine ⟨rfl, he, ?_⟩
      simp [getOrSet, Discover.get, Discover.Set, hk, he]
    · exfalso
      apply h
      rw [getOrSet_failed w cache pod hk he]

/-- The calls of `discovery.New` in `Discover.Register` are those of get-or-set. -/
theorem newCalls_Register (w : World) (cache : Cache) (pod : Pod) :
    newCalls (Discover.Register w cache pod).trace = newCalls (getOrSet w cache pod).2.1 := by
  rw [Register_trace]
  rcases getOrSet_trace w cache pod with h | h <;> simp [h, newCalls]

/-- Enqueueing adds no call of `discovery.New`. -/
theorem newCalls_afterCall (r : Run (Option Error)) (action : String) (obj : Obj) :
    newCalls (afterCall r action obj).trace = newCalls r.trace := by
  rcases afterCall_trace r action obj with h | ⟨s, h⟩ <;> simp [h, newCalls]

/-- The SDK cancel calls of `Discover.HealthCheckOrCancel`: one, with the
application id of the descriptor, if the probe returned an error or `ok = false`;
none otherwise. -/
theorem sdkCancelCalls_HealthCheckOrCancel (w : World) (cache : Cache) (pod : Pod) :
    sdkCancelCalls (Discover.HealthCheckOrCancel w cache pod).trace
      = if (Discover.healthCheck w pod).2.2 ≠ none ∨ (Discover.healthCheck w pod).2.1 = false
        then [((getOrSet w cache pod).2.2, (Discover.instance w pod true).2.AppID)]
        else [] := by
  simp only [Discover.HealthCheckOrCancel, buildInstance_trace, healthCheck_trace]
  split
  · split <;>
      rcases getOrSet_trace w cache pod with h | h <;> simp [h, sdkCancelCalls]
  · rcases getOrSet_trace w cache pod with h | h <;> simp [h, sdkCancelCalls]

/-- When `Discover.HealthCheckOrCancel` returns, `d.delete` has run. -/
theorem HealthCheckOrCancel_returns (w : World) (cache : Cache) (pod : Pod) (e : Option Error)
    (h : (Discover.HealthCheckOrCancel w cache pod).out = Outcome.ret e) :
    (Discover.HealthCheckOrCancel w cache pod).cache = Discover.delete (getOrSet w cache pod).1 pod
    ∧ e = (Discover.healthCheck w pod).2.2 := by
  simp only [Discover.HealthCheckOrCancel] at h ⊢
  by_cases hc : (Discover.healthCheck w pod).2.2 ≠ none ∨ (Discover.healthCheck w pod).2.1 = false
  · rw [if_pos hc] at h ⊢
    split at h
    · next hs =>
      simp only [hs]
      simp only [Outcome.ret.injEq] at h
      exact ⟨trivial, h.symm⟩
    · cases h
  · rw [if_neg hc] at h ⊢
    simp only [Outcome.ret.injEq] at h
    exact ⟨rfl, h.symm⟩

/-! ## Replay, health check and cancellation -/

/-- C12. When the map already has an entry for the pod's key, `Discover.Register`
(and so the replay `RetryWork("Add", pod)`) calls `discovery.New` not at all and
leaves the map exactly as it was. For every map, `Discover.Register` removes no
entry and touches no other key; the pod's entry changes only when the key was
absent and `discovery.New` returned no error, and is then the new client. -/
theorem Register_keeps_cached_handles (w : World) (cache : Cache) (pod : Pod) :
    (cache (podKey pod) ≠ none →
      (Discover.Register w cache pod).cache = cache
      ∧ newCalls (Discover.Register w cache pod).trace = 0
      ∧ (RetryWork w cache ActionAdd (some pod)).cache = cache
      ∧ newCalls (RetryWork w cache ActionAdd (some pod)).trace = 0)
    ∧ (∀ k p, cache k = some p → (Discover.Register w cache pod).cache k = some p)
    ∧ (∀ k, k ≠ podKey pod → (Discover.Register w cache pod).cache k = cache k)
    ∧ ((Discover.Register w cache pod).cache (podKey pod) ≠ cache (podKey pod) →
        cache (podKey pod) = none ∧ w.discoveryNew.2 = none
        ∧ (Discover.Register w cache pod).cache (podKey pod) = some w.discoveryNew.1) := by
  rw [Register_cache, newCalls_Register]
  refine ⟨?_, ?_, ?_, ?_⟩
  · intro hc
    obtain ⟨h1, h2, _⟩ := getOrSet_present w cache pod hc
    refine ⟨h1, by rw [h2]; rfl, ?_, ?_⟩
    · by_cases hp : pod.Phase = PodRunning
      · have hR : RetryWork w cache ActionAdd (some pod)
            = afterCall (Discover.Register w cache pod) ActionAdd (Obj.pod (some pod)) := by
          simp [RetryWork, ActionAdd, OnAdd, asPod, hp]
        rw [hR, afterCall_cache, Register_cache, h1]
      · simp [RetryWork, ActionAdd, OnAdd, asPod, hp]
    · by_cases hp : pod.Phase = PodRunning
      · have hR : RetryWork w cache ActionAdd (some pod)
            = afterCall (Discover.Register w cache pod) ActionAdd (Obj.pod (some pod)) := by
          simp [RetryWork, ActionAdd, OnAdd, asPod, hp]
        rw [hR, newCalls_afterCall, newCalls_Register, h2]
        rfl
      · simp [RetryWork, ActionAdd, OnAdd, asPod, hp, newCalls]
  · intro k p hk
    exact getOrSet_keeps w cache pod k p hk
  · intro k hk
    exact getOrSet_other w cache pod k hk
  · intro h
    exact getOrSet_changes w cache pod h

/-- C12, at a map that holds a client for the pod's key. -/
theorem Register_keeps_cached_handles_witness :
    cacheA 3 (podKey (podA "1" "Running")) ≠ none
    ∧ newCalls (Discover.Register wOk (cacheA 3) (podA "1" "Running")).trace = 0 :=
  ⟨by decide,
   ((Register_keeps_cached_handles wOk (cacheA 3) (podA "1" "Running")).1 (by decide)).2.1⟩

/-- C16. For every pod and every action string, `RetryWork` is `OnAdd` on the pod
when the action is `Add`, `OnDelete` on the pod when the action is `Delete`, and
does nothing (no call, no insertion, the map untouched) for any other action;
`Add` and `Delete` are the actions the handlers enqueue. -/
theorem RetryWork_replays (w : World) (cache : Cache) (pod : Option Pod) (action : String) :
    RetryWork w cache "Add" pod = OnAdd w cache (Obj.pod pod)
    ∧ RetryWork w cache "Delete" pod = OnDelete w cache (Obj.pod pod)
    ∧ (action ≠ "Add" → action ≠ "Delete" →
        RetryWork w cache action pod = ⟨cache, [], Outcome.ret ()⟩)
    ∧ ActionAdd = "Add" ∧ ActionDelete = "Delete" := by
  refine ⟨?_, ?_, ?_, rfl, rfl⟩
  · simp [RetryWork]
  · simp [RetryWork]
  · intro h1 h2
    simp [RetryWork, h1, h2]

/-- C16, at an action that is neither `Add` nor `Delete`. -/
theorem RetryWork_replays_witness :
    "Update" ≠ "Add" ∧ "Update" ≠ "Delete"
    ∧ (RetryWork wOk (cacheA 3) "Update" (some podTwo)).trace = [] :=
  ⟨by decide, by decide,
   congrArg Run.trace
     ((RetryWork_replays wOk (cacheA 3) (some podTwo) "Update").2.2.1 (by decide) (by decide))⟩

/-- C13. For every pod, map and world, `Discover.HealthCheckOrCancel` calls the
SDK cancel operation, once and with the value of the pod's last `IDG_UNIQUEID`
variable as application id, if the probe returned an error or `ok = false`, and
not at all otherwise; whenever it returns, the pod's key has no live client in
the map (the key is absent, unless a nil pointer was stored under it or
`discovery.New` returned nil without an error). -/
theorem HealthCheckOrCancel_cancels_iff_unhealthy (w : World) (cache : Cache) (pod : Pod) :
    (((Discover.healthCheck w pod).2.2 ≠ none ∨ (Discover.healthCheck w pod).2.1 = false) →
      ∃ dis, sdkCancelCalls (Discover.HealthCheckOrCancel w cache pod).trace
        = [(dis, (lastValue "IDG_UNIQUEID" (podEnv pod)).getD "")])
    ∧ (¬ ((Discover.healthCheck w pod).2.2 ≠ none ∨ (Discover.healthCheck w pod).2.1 = false) →
      sdkCancelCalls (Discover.HealthCheckOrCancel w cache pod).trace = [])
    ∧ (∀ e, (Discover.HealthCheckOrCancel w cache pod).out = Outcome.ret e →
      liveHandle (Discover.HealthCheckOrCancel w cache pod).cache (podKey pod) = none)
    ∧ (∀ e, (Discover.HealthCheckOrCancel w cache pod).out = Outcome.ret e →
      cache (podKey pod) ≠ some none → w.discoveryNew ≠ (none, none) →
        (Discover.HealthCheckOrCancel w cache pod).cache (podKey pod) = none) := by
  rw [sdkCancelCalls_HealthCheckOrCancel]
  refine ⟨?_, ?_, ?_, ?_⟩
  · intro h
    rw [if_pos h, (buildInstance_fields w pod true).2.2.2.2]
    exact ⟨_, rfl⟩
  · intro h
    rw [if_neg h]
  · intro e h
    rw [(HealthCheckOrCancel_returns w cache pod e h).1]
    exact delete_liveHandle _ pod
  · intro e h hc hw
    rw [(HealthCheckOrCancel_returns w cache pod e h).1]
    exact delete_absent _ pod (getOrSet_not_nil w cache pod hc hw)

/-- C13, at a probe that reports `ok = false`. -/
theorem HealthCheckOrCancel_cancels_iff_unhealthy_witness :
    ((Discover.healthCheck (wProbe 200) podTwo).2.2 ≠ none
      ∨ (Discover.healthCheck (wProbe 200) podTwo).2.1 = false)
    ∧ ∃ dis, sdkCancelCalls (Discover.HealthCheckOrCancel (wProbe 200) (cacheA 3) podTwo).trace
        = [(dis, (lastValue "IDG_UNIQUEID" (podEnv podTwo)).getD "")] :=
  ⟨Or.inr (by decide),
   (HealthCheckOrCancel_cancels_iff_unhealthy (wProbe 200) (cacheA 3) podTwo).1
     (Or.inr (by decide))⟩

/-- C15. With the probe enabled, the descriptor `Discover.instance` returns has
status Receive exactly when the probe returned the nil error and `ok = true`,
and status NotReceive otherwise, whatever the container statuses are. -/
theorem instance_status_with_probe (w : World) (pod : Pod) :
    ((Discover.instance w pod false).2.Status = InstanceStatus.Receive
      ↔ (Discover.healthCheck w pod).2.2 = none ∧ (Discover.healthCheck w pod).2.1 = true)
    ∧ ((Discover.instance w pod false).2.Status = InstanceStatus.NotReceive
      ↔ ¬ ((Discover.healthCheck w pod).2.2 = none ∧ (Discover.healthCheck w pod).2.1 = true))
    ∧ ∀ statuses : List ContainerStatus,
        (Discover.instance w { pod with ContainerStatuses := statuses } false).2.Status
          = (Discover.instance w pod false).2.Status := by
  have hS : ∀ p : Pod, (Discover.instance w p false).2.Status
      = if (Discover.healthCheck w p).2.2 = none ∧ (Discover.healthCheck w p).2.1 = true
        then InstanceStatus.Receive else InstanceStatus.NotReceive := by
    intro p
    rw [(buildInstance_fields w p false).2.2.1]
    simp only [instanceStatus, Bool.not_false, if_true]
    split <;> rfl
  refine ⟨?_, ?_, ?_⟩
  · rw [hS]
    by_cases h : (Discover.healthCheck w pod).2.2 = none ∧ (Discover.healthCheck w pod).2.1 = true
    · simp [h]
    · simp [h]
  · rw [hS]
    by_cases h : (Discover.healthCheck w pod).2.2 = none ∧ (Discover.healthCheck w pod).2.1 = true
    · simp [h]
    · simp [h]
  · intro statuses
    rw [hS, hS]
    rfl

/-- C17. When get-or-set yields a client on which the SDK cancel call returns,
`Discover.Cancel` returns the nil error; it returns a non-nil error in no case.
So `OnDelete`, and `OnUpdate` from Running to another phase, insert nothing into
the retry queue. -/
theorem Cancel_never_requeues (w : World) (cache : Cache) (pod : Pod) :
    (∀ h : Handle, (getOrSet w cache pod).2.2 = some h →
      w.sdkCancel (some h) (Discover.instance w pod true).2.AppID ≠ Outcome.panic →
        (Discover.Cancel w cache pod).out = Outcome.ret none)
    ∧ (∀ e, (Discover.Cancel w cache pod).out ≠ Outcome.ret (some e))
    ∧ queueAdds (OnDelete w cache (Obj.pod (some pod))).trace = []
    ∧ (∀ old : Pod, old.ResourceVersion ≠ pod.ResourceVersion →
        old.Phase = PodRunning → pod.Phase ≠ PodRunning →
          queueAdds (OnUpdate w cache (Obj.pod (some old)) (Obj.pod (some pod))).trace = []) := by
  have hq : queueAdds (afterCall (Discover.Cancel w cache pod) ActionDelete
      (Obj.pod (some pod))).trace = [] := by
    have hA : (afterCall (Discover.Cancel w cache pod) ActionDelete (Obj.pod (some pod))).trace
        = (Discover.Cancel w cache pod).trace := by
      rcases Cancel_out w cache pod with h | h <;> simp [afterCall, h]
    rw [hA, queueAdds_Cancel]
  refine ⟨?_, ?_, ?_, ?_⟩
  · intro h hd hp
    simp only [Discover.Cancel]
    rw [hd]
    split
    · rfl
    · next hs => exact absurd hs hp
  · intro e h
    rcases Cancel_out w cache pod with h' | h' <;> rw [h'] at h <;> cases h
  · rw [OnDelete_pod, hq]
  · intro old hrv ho hn
    rw [OnUpdate_from_running w cache old pod hrv ho hn, hq]

/-- C17, at a map that holds a client for the pod's key. -/
theorem Cancel_never_requeues_witness :
    (getOrSet wOk (cacheA 3) podTwo).2.2 = some 3
    ∧ wOk.sdkCancel (some 3) (Discover.instance wOk podTwo true).2.AppID ≠ Outcome.panic
    ∧ (Discover.Cancel wOk (cacheA 3) podTwo).out = Outcome.ret none :=
  ⟨by decide, by decide,
   (Cancel_never_requeues wOk (cacheA 3) podTwo).1 3 (by decide) (by decide)⟩

/-! ## Two concurrent registrations -/

/-- The three steps of one goroutine, taken without interruption, are
`Discover.Register`. -/
theorem registerStep_sequential (w : World) (cache : Cache) (pod : Pod) :
    (runRace w w pod cache [true, true, true]).cache = (Discover.Register w cache pod).cache
    ∧ (runRace w w pod cache [true, true, true]).trace = (Discover.Register w cache pod).trace
    ∧ (runRace w w pod cache [true, true, true]).pc1
        = RegisterPc.done (getOrSet w cache pod).2.2 (Discover.Register w cache pod).out := by
  rw [Register_cache, Register_out, Register_trace]
  simp only [runRace, List.foldl_cons, List.foldl_nil, raceStep, if_true, registerStep,
    buildInstance_trace, getOrSet]
  cases hk : (Discover.get cache pod).2 <;> simp

/-- The map after the race in which both goroutines miss: the second write is on top. -/
theorem race_cache :
    (runRace (wHandle 1) (wHandle 2) podTwo (fun _ => none) scheduleBothMiss).cache
      = fun k => if k = "ns/a" then some (some 2) else if k = "ns/a" then some (some 1) else none := by
  rfl

/-- When the first goroutine finishes before the second starts, `discovery.New`
is called once and both register through the same client. -/
theorem race_one_by_one :
    newCalls (runRace (wHandle 1) (wHandle 2) podTwo (fun _ => none) scheduleOneByOne).trace = 1
    ∧ (sdkRegisterCalls
        (runRace (wHandle 1) (wHandle 2) podTwo (fun _ => none) scheduleOneByOne).trace).map
          Prod.fst = [some 1, some 1] := by
  decide

/-- C14 (what the code does). Two goroutines run `Discover.Register` for the same
pod on an empty map, both running `d.get` before either runs `d.Set`:
`discovery.New` is called twice, the first goroutine registers through client 1
and the second through client 2, the map ends with client 2 under the pod's
key and with client 1 under no key, and a later `Discover.Cancel` uses
client 2. -/
theorem concurrent_register_leaks_handle :
    (runRace (wHandle 1) (wHandle 2) podTwo (fun _ => none) scheduleBothMiss).pc1
        = RegisterPc.done (some 1) (Outcome.ret none)
    ∧ (runRace (wHandle 1) (wHandle 2) podTwo (fun _ => none) scheduleBothMiss).pc2
        = RegisterPc.done (some 2) (Outcome.ret none)
    ∧ newCalls (runRace (wHandle 1) (wHandle 2) podTwo (fun _ => none) scheduleBothMiss).trace = 2
    ∧ (sdkRegisterCalls
        (runRace (wHandle 1) (wHandle 2) podTwo (fun _ => none) scheduleBothMiss).trace).map
          Prod.fst = [some 1, some 2]
    ∧ (runRace (wHandle 1) (wHandle 2) podTwo (fun _ => none) scheduleBothMiss).cache
        (podKey podTwo) = some (some 2)
    ∧ (∀ k, (runRace (wHandle 1) (wHandle 2) podTwo (fun _ => none) scheduleBothMiss).cache k
        ≠ some (some 1))
    ∧ (sdkCancelCalls (Discover.Cancel wOk
        (runRace (wHandle 1) (wHandle 2) podTwo (fun _ => none) scheduleBothMiss).cache
        podTwo).trace).map Prod.fst = [some 2] := by
  refine ⟨by decide, by decide, by decide, by decide, by decide, ?_, by decide⟩
  intro k
  rw [race_cache]
  by_cases hk : k = "ns/a" <;> simp [hk]

end Mesh
